import Mathlib

/-
Verification of the beam-optimisation program (beams.py and part2.py).

Shallow embedding conventions:
* Python numbers (int / float) are idealised as exact rationals (ℚ): decimal
  literals denote their exact decimal value and finite arithmetic is exact.
  `math.pi` is embedded as the exact rational value of the IEEE-754 double
  bound to `math.pi`.
* The program's grid values and material table entries are `numpy.float64`,
  whose arithmetic differs observably from Python numbers in one modelled
  respect: dividing by a `numpy.float64` zero (or dividing a `numpy.float64`
  by a Python zero) yields an infinity (or nan), with no exception, whereas a
  Python number divided by a Python zero raises ZeroDivisionError.  Numpy
  scalars are modelled by the `PyVal.npnum` (finite, exact-rational
  idealisation), `PyVal.npinf` (signed infinity) and `PyVal.npnan`
  constructors; an operation mixing a Python number with a numpy scalar
  produces a numpy scalar, as in the program.  The idealisation carries no
  signed zero: the program's computed zero divisors (for example the
  rectangular section of breadth = height = wall·2) are IEEE +0.0, so a zero
  divisor is treated as +0.
* Python's `None`, together with arbitrary non-numeric values, is modelled by
  `PyVal.none` and `PyVal.other`; the exceptions the code can meet
  (AttributeError, TypeError, ZeroDivisionError) are modelled by `PyErr`, and
  every operation that can raise returns `Except PyErr _`.  The `try/except
  (AttributeError, TypeError)` blocks of `beams.py` are modelled by mapping
  exactly those two errors to the Python result `None`; any other error
  propagates.
* A missing attribute (for example `area` on the abstract base class) is an
  `Option.none` field; reading it through `getAttr` raises AttributeError.
-/

/-- A `numpy.float64` value: finite (exact-rational idealisation), a signed
infinity (`true` = positive), or nan. -/
inductive NpF where
  | fin : ℚ → NpF
  | inf : Bool → NpF
  | nan : NpF
deriving DecidableEq, Repr

/-- Result values of Python expressions: a Python number, a numpy float64
scalar (finite, infinite or nan), `None`, or some other non-numeric object
(which raises TypeError in arithmetic and ordered comparisons). -/
inductive PyVal where
  | num : ℚ → PyVal
  | npnum : ℚ → PyVal
  | npinf : Bool → PyVal
  | npnan : PyVal
  | none : PyVal
  | other : PyVal
deriving DecidableEq, Repr

/-- View a numeric `PyVal` (Python or numpy) as a `numpy.float64`, the
coercion numpy applies in mixed arithmetic; `Option.none` for non-numbers. -/
def toNpF : PyVal → Option NpF
  | .num q => Option.some (.fin q)
  | .npnum q => Option.some (.fin q)
  | .npinf s => Option.some (.inf s)
  | .npnan => Option.some .nan
  | _ => Option.none

/-- The `PyVal` carried by a `numpy.float64` result. -/
def ofNpF : NpF → PyVal
  | .fin q => .npnum q
  | .inf s => .npinf s
  | .nan => .npnan

/-- numpy float64 addition. -/
def npAdd : NpF → NpF → NpF
  | .nan, _ => .nan
  | _, .nan => .nan
  | .fin a, .fin b => .fin (a + b)
  | .fin _, .inf s => .inf s
  | .inf s, .fin _ => .inf s
  | .inf s, .inf t => if s = t then .inf s else .nan

/-- numpy float64 multiplication. -/
def npMul : NpF → NpF → NpF
  | .nan, _ => .nan
  | _, .nan => .nan
  | .fin a, .fin b => .fin (a * b)
  | .fin a, .inf s => if a = 0 then .nan else if 0 < a then .inf s else .inf (!s)
  | .inf s, .fin a => if a = 0 then .nan else if 0 < a then .inf s else .inf (!s)
  | .inf s, .inf t => .inf (s == t)

/-- numpy float64 division: division by (unsigned, hence +0) zero yields a
signed infinity (or nan for 0/0) instead of raising. -/
def npDiv : NpF → NpF → NpF
  | .nan, _ => .nan
  | _, .nan => .nan
  | .fin a, .fin b =>
    if b = 0 then (if a = 0 then .nan else if 0 < a then .inf true else .inf false)
    else .fin (a / b)
  | .fin _, .inf _ => .fin 0
  | .inf s, .fin b => if 0 ≤ b then .inf s else .inf (!s)
  | .inf _, .inf _ => .nan

/-- numpy float64 `<=`: false whenever nan is involved. -/
def npLe : NpF → NpF → Bool
  | .nan, _ => false
  | _, .nan => false
  | .fin a, .fin b => decide (a ≤ b)
  | .fin _, .inf s => s
  | .inf s, .fin _ => !s
  | .inf s, .inf t => !s || t

/-- numpy float64 `<`: false whenever nan is involved. -/
def npLt : NpF → NpF → Bool
  | .nan, _ => false
  | _, .nan => false
  | .fin a, .fin b => decide (a < b)
  | .fin _, .inf s => s
  | .inf s, .fin _ => !s
  | .inf s, .inf t => !s && t

/-- numpy float64 `==`: nan is not equal to anything, including itself. -/
def npEq : NpF → NpF → Bool
  | .nan, _ => false
  | _, .nan => false
  | .fin a, .fin b => decide (a = b)
  | .inf s, .inf t => s == t
  | _, _ => false

/-- The exceptions the source can raise in the modelled fragment. -/
inductive PyErr where
  | typeError : PyErr
  | attributeError : PyErr
  | zeroDivisionError : PyErr
deriving DecidableEq, Repr

instance {ε α : Type} [DecidableEq ε] [DecidableEq α] : DecidableEq (Except ε α) :=
  fun a b =>
    match a, b with
    | .ok x, .ok y =>
      if h : x = y then .isTrue (by rw [h]) else .isFalse (by intro hc; injection hc; exact h (by assumption))
    | .ok _, .error _ => .isFalse (by intro hc; exact Except.noConfusion hc)
    | .error _, .ok _ => .isFalse (by intro hc; exact Except.noConfusion hc)
    | .error e, .error f =>
      if h : e = f then .isTrue (by rw [h]) else .isFalse (by intro hc; injection hc; exact h (by assumption))

/-- Python `x * y`: Python-number pairs stay Python; a pair involving a numpy
scalar is coerced to numpy; non-numbers raise TypeError. -/
def pyMul : PyVal → PyVal → Except PyErr PyVal
  | .num a, .num b => .ok (.num (a * b))
  | u, v =>
    match toNpF u, toNpF v with
    | Option.some x, Option.some y => .ok (ofNpF (npMul x y))
    | _, _ => .error .typeError

/-- Python `x + y`. -/
def pyAdd : PyVal → PyVal → Except PyErr PyVal
  | .num a, .num b => .ok (.num (a + b))
  | u, v =>
    match toNpF u, toNpF v with
    | Option.some x, Option.some y => .ok (ofNpF (npAdd x y))
    | _, _ => .error .typeError

/-- Python `x / y`: true division.  Dividing a Python number by a Python zero
raises ZeroDivisionError; as soon as a numpy scalar is involved the division
is performed by numpy, which yields an infinity or nan instead of raising;
non-numeric operands raise TypeError. -/
def pyDiv : PyVal → PyVal → Except PyErr PyVal
  | .num a, .num b => if b = 0 then .error .zeroDivisionError else .ok (.num (a / b))
  | u, v =>
    match toNpF u, toNpF v with
    | Option.some x, Option.some y => .ok (ofNpF (npDiv x y))
    | _, _ => .error .typeError

/-- Python `x ** 2`. -/
def pySq : PyVal → Except PyErr PyVal
  | .num a => .ok (.num (a ^ 2))
  | v =>
    match toNpF v with
    | Option.some x => .ok (ofNpF (npMul x x))
    | Option.none => .error .typeError

/-- Python `min(x, y)`: returns `y` if `y < x` else `x` (preserving the
operand, hence its Python/numpy flavour); the comparison raises TypeError off
numbers. -/
def pyMin : PyVal → PyVal → Except PyErr PyVal
  | .num a, .num b => .ok (.num (min a b))
  | u, v =>
    match toNpF u, toNpF v with
    | Option.some x, Option.some y => .ok (if npLt y x then v else u)
    | _, _ => .error .typeError

/-- Python `x >= y` (IEEE semantics once numpy is involved: nan compares
false). -/
def pyGe : PyVal → PyVal → Except PyErr Bool
  | .num a, .num b => .ok (decide (a ≥ b))
  | u, v =>
    match toNpF u, toNpF v with
    | Option.some x, Option.some y => .ok (npLe y x)
    | _, _ => .error .typeError

/-- Python `x <= y`. -/
def pyLe : PyVal → PyVal → Except PyErr Bool
  | .num a, .num b => .ok (decide (a ≤ b))
  | u, v =>
    match toNpF u, toNpF v with
    | Option.some x, Option.some y => .ok (npLe x y)
    | _, _ => .error .typeError

/-- Python `x < y`. -/
def pyLt : PyVal → PyVal → Except PyErr Bool
  | .num a, .num b => .ok (decide (a < b))
  | u, v =>
    match toNpF u, toNpF v with
    | Option.some x, Option.some y => .ok (npLt x y)
    | _, _ => .error .typeError

/-- Python `x > y`. -/
def pyGt : PyVal → PyVal → Except PyErr Bool
  | .num a, .num b => .ok (decide (a > b))
  | u, v =>
    match toNpF u, toNpF v with
    | Option.some x, Option.some y => .ok (npLt y x)
    | _, _ => .error .typeError

/-- Python `x == y` (never raises; nan is unequal to everything; distinct
non-numeric objects are only compared with themselves here, where identity
gives `True`). -/
def pyEq : PyVal → PyVal → Bool
  | .num a, .num b => decide (a = b)
  | .none, .none => true
  | .other, .other => true
  | u, v =>
    match toNpF u, toNpF v with
    | Option.some x, Option.some y => npEq x y
    | _, _ => false

/-- Attribute access: a field the instance does not define raises
AttributeError. -/
def getAttr : Option PyVal → Except PyErr PyVal
  | Option.some v => .ok v
  | Option.none => .error .attributeError

/-- `except (AttributeError, TypeError): return None` around a value-producing
body: those two errors become the Python value `None`; others propagate. -/
def catchErrV : PyErr → Except PyErr PyVal
  | .typeError => .ok PyVal.none
  | .attributeError => .ok PyVal.none
  | e => .error e

/-- The same except-clause around `is_sufficient`, whose normal result is a
bool (`Option.some`) and whose caught result is `None` (`Option.none`). -/
def catchErrB : PyErr → Except PyErr (Option Bool)
  | .typeError => .ok Option.none
  | .attributeError => .ok Option.none
  | e => .error e

/-- Cost of electricity in dollars per joule: `0.314 / 10**3 / 3600`. -/
def ELECTRICITY_COST : ℚ := 314 / 1000 / 10 ^ 3 / 3600

/-- The exact rational value of the IEEE-754 double `math.pi`. -/
def math_pi : ℚ := 884279719003555 / 281474976710656

/-- `Material`: property record; all fields are held as Python values so that
ill-typed rows can be discussed.  `electricity_cost` is the class constant
`ELECTRICITY_COST` and is kept implicit (always numeric). -/
structure Material where
  name : String
  yield_stress : PyVal
  modulus : PyVal
  elongation : PyVal
  density : PyVal
  price : PyVal
  energy_density : PyVal
deriving DecidableEq, Repr

/-- The state of a `Beam` instance as the base-class code sees it: the owned
material plus the attributes `length`, `area`, `second_moment_of_area_xx` and
`second_moment_of_area_yy` that a subclass may (or may not) define.  The
concrete subclasses are the functions `RHSBeam`, `CHSBeam` and `IBeam` below,
which populate the geometric attributes with their closed-form values. -/
structure Beam where
  material : Material
  length : Option PyVal
  area : Option PyVal
  second_moment_of_area_xx : Option PyVal
  second_moment_of_area_yy : Option PyVal
deriving DecidableEq, Repr

namespace Beam

/-- `volume`: `self.area * self.length`, with AttributeError/TypeError
caught to `None`. -/
def volume (b : Beam) : Except PyErr PyVal :=
  match getAttr b.area with
  | .error e => catchErrV e
  | .ok a =>
    match getAttr b.length with
    | .error e => catchErrV e
    | .ok l =>
      match pyMul a l with
      | .error e => catchErrV e
      | .ok v => .ok v

/-- `mass`: `self.volume * self.material.density`. -/
def mass (b : Beam) : Except PyErr PyVal :=
  match volume b with
  | .error e => catchErrV e
  | .ok v =>
    match pyMul v b.material.density with
    | .error e => catchErrV e
    | .ok r => .ok r

/-- `cost`: `self.mass * self.material.price`. -/
def cost (b : Beam) : Except PyErr PyVal :=
  match mass b with
  | .error e => catchErrV e
  | .ok m =>
    match pyMul m b.material.price with
    | .error e => catchErrV e
    | .ok r => .ok r

/-- `total_embodied_energy`: `self.mass * self.material.energy_density`. -/
def total_embodied_energy (b : Beam) : Except PyErr PyVal :=
  match mass b with
  | .error e => catchErrV e
  | .ok m =>
    match pyMul m b.material.energy_density with
    | .error e => catchErrV e
    | .ok r => .ok r

/-- `embodied_energy_cost`:
`self.total_embodied_energy * self.material.electricity_cost`. -/
def embodied_energy_cost (b : Beam) : Except PyErr PyVal :=
  match total_embodied_energy b with
  | .error e => catchErrV e
  | .ok t =>
    match pyMul t (PyVal.num ELECTRICITY_COST) with
    | .error e => catchErrV e
    | .ok r => .ok r

/-- `total_cost`: `self.cost + self.embodied_energy_cost`. -/
def total_cost (b : Beam) : Except PyErr PyVal :=
  match cost b with
  | .error e => catchErrV e
  | .ok c =>
    match embodied_energy_cost b with
    | .error e => catchErrV e
    | .ok ee =>
      match pyAdd c ee with
      | .error e => catchErrV e
      | .ok r => .ok r

/-- `buckling_load`:
`math.pi**2 * self.material.modulus * min(I_xx, I_yy) / self.length ** 2`,
reading the two second moments first; only AttributeError/TypeError are
caught, so a zero-division (zero length) escapes. -/
def buckling_load (b : Beam) : Except PyErr PyVal :=
  match getAttr b.second_moment_of_area_xx with
  | .error e => catchErrV e
  | .ok ixx =>
    match getAttr b.second_moment_of_area_yy with
    | .error e => catchErrV e
    | .ok iyy =>
      match pyMin ixx iyy with
      | .error e => catchErrV e
      | .ok minI =>
        match pyMul (PyVal.num (math_pi ^ 2)) b.material.modulus with
        | .error e => catchErrV e
        | .ok p1 =>
          match pyMul p1 minI with
          | .error e => catchErrV e
          | .ok p2 =>
            match getAttr b.length with
            | .error e => catchErrV e
            | .ok len =>
              match pySq len with
              | .error e => catchErrV e
              | .ok len2 =>
                match pyDiv p2 len2 with
                | .error e => catchErrV e
                | .ok r => .ok r

/-- `squash_load`: `self.material.yield_stress * self.area`. -/
def squash_load (b : Beam) : Except PyErr PyVal :=
  match getAttr b.area with
  | .error e => catchErrV e
  | .ok a =>
    match pyMul b.material.yield_stress a with
    | .error e => catchErrV e
    | .ok r => .ok r

/-- `get_strain(loading)`: `(loading / self.area) / self.material.modulus`;
only AttributeError/TypeError are caught, so a zero-division (zero area)
escapes. -/
def get_strain (b : Beam) (loading : PyVal) : Except PyErr PyVal :=
  match getAttr b.area with
  | .error e => catchErrV e
  | .ok a =>
    match pyDiv loading a with
    | .error e => catchErrV e
    | .ok stress =>
      match pyDiv stress b.material.modulus with
      | .error e => catchErrV e
      | .ok strain => .ok strain

/-- `is_sufficient(loading)`: computes the strain, then evaluates
`squash_load >= loading and buckling_load >= loading and strain <= elongation`
with Python's short-circuiting `and`; AttributeError/TypeError anywhere in the
body yield `None` (`Option.none`); other errors propagate. -/
def is_sufficient (b : Beam) (loading : PyVal) : Except PyErr (Option Bool) :=
  match get_strain b loading with
  | .error e => catchErrB e
  | .ok strain =>
    match squash_load b with
    | .error e => catchErrB e
    | .ok sq =>
      match pyGe sq loading with
      | .error e => catchErrB e
      | .ok false => .ok (Option.some false)
      | .ok true =>
        match buckling_load b with
        | .error e => catchErrB e
        | .ok bl =>
          match pyGe bl loading with
          | .error e => catchErrB e
          | .ok false => .ok (Option.some false)
          | .ok true =>
            match pyLe strain b.material.elongation with
            | .error e => catchErrB e
            | .ok c => .ok (Option.some c)

/-- The comparison body of `get_new_best_beam` (source lines 173-188), after
the sufficiency gate has passed and a `None` incumbent has been replaced by
`self`; `curr` is the value of the rebound `curr_best_beam` variable.  Note a
peculiarity of the source kept faithfully here: in the strictly-smaller-area
branch the source assigns `best_beam = self` to a local variable that is never
read again, and the function returns `curr_best_beam`; only the equal-area
tie-break branch rebinds `curr_best_beam`. -/
def compare_with (self curr : Beam) : Except PyErr (Option Beam) :=
  match getAttr self.area with
    | .error e => .error e
    | .ok a =>
      match getAttr curr.area with
      | .error e => .error e
      | .ok ca =>
        match pyLt a ca with
        | .error e => .error e
        | .ok true => .ok (Option.some curr)
        | .ok false =>
          if pyEq a ca then
            match getAttr self.second_moment_of_area_xx with
            | .error e => .error e
            | .ok ix =>
              match getAttr curr.second_moment_of_area_xx with
              | .error e => .error e
              | .ok bix =>
                match getAttr self.second_moment_of_area_yy with
                | .error e => .error e
                | .ok iy =>
                  match getAttr curr.second_moment_of_area_yy with
                  | .error e => .error e
                  | .ok biy =>
                    match pyGt ix bix with
                    | .error e => .error e
                    | .ok false => .ok (Option.some curr)
                    | .ok true =>
                      match pyGt iy biy with
                      | .error e => .error e
                      | .ok false => .ok (Option.some curr)
                      | .ok true => .ok (Option.some self)
          else .ok (Option.some curr)

/-- `get_new_best_beam(loading, curr_best_beam)`: if this beam is sufficient
(truthy), replace a `None` incumbent by `self` and run the comparison body;
otherwise return the incumbent unchanged. -/
def get_new_best_beam (self : Beam) (loading : PyVal) (curr_best_beam : Option Beam) :
    Except PyErr (Option Beam) :=
  match is_sufficient self loading with
  | .error e => .error e
  | .ok (Option.some true) => compare_with self (curr_best_beam.getD self)
  | .ok _ => .ok curr_best_beam

end Beam

/-- Cross-sectional area of the I-beam:
`2 * b * tf + tw * (h - 2 * tf)` (flanges plus web). -/
def IBeam_area (b h tw tf : ℚ) : ℚ := 2 * b * tf + tw * (h - 2 * tf)

/-- `IBeam.second_moment_of_area_xx`: big rectangle minus the two side
rectangles. -/
def IBeam_Ixx (b h tw tf : ℚ) : ℚ :=
  b * h ^ 3 / 12 - 2 * ((b - tw) / 2 * (h - 2 * tf) ^ 3 / 12)

/-- `IBeam.second_moment_of_area_yy`: two flanges plus the web. -/
def IBeam_Iyy (b h tw tf : ℚ) : ℚ :=
  2 * (tf * b ^ 3 / 12) + (h - 2 * tf) * tw ^ 3 / 12

/-- An `IBeam(material, length, b, h, tw, tf)` instance, its geometric
properties evaluated to the subclass's closed forms.  The search passes
`numpy.float64` dimensions (from `np.arange`), so the derived geometry is
numpy-valued; `length` is a Python float. -/
def IBeam (material : Material) (length b h tw tf : ℚ) : Beam :=
  { material := material
    length := Option.some (PyVal.num length)
    area := Option.some (PyVal.npnum (IBeam_area b h tw tf))
    second_moment_of_area_xx := Option.some (PyVal.npnum (IBeam_Ixx b h tw tf))
    second_moment_of_area_yy := Option.some (PyVal.npnum (IBeam_Iyy b h tw tf)) }

/-- `RHSBeam.area`: outer rectangle minus inner rectangle. -/
def RHSBeam_area (b h t : ℚ) : ℚ := b * h - (b - 2 * t) * (h - 2 * t)

/-- `RHSBeam.second_moment_of_area_xx`. -/
def RHSBeam_Ixx (b h t : ℚ) : ℚ :=
  b * h ^ 3 / 12 - (b - 2 * t) * (h - 2 * t) ^ 3 / 12

/-- `RHSBeam.second_moment_of_area_yy`. -/
def RHSBeam_Iyy (b h t : ℚ) : ℚ :=
  h * b ^ 3 / 12 - (h - 2 * t) * (b - 2 * t) ^ 3 / 12

/-- An `RHSBeam(material, length, b, h, t)` instance; `numpy.float64`
dimensions from the search grid, Python-float `length`. -/
def RHSBeam (material : Material) (length b h t : ℚ) : Beam :=
  { material := material
    length := Option.some (PyVal.num length)
    area := Option.some (PyVal.npnum (RHSBeam_area b h t))
    second_moment_of_area_xx := Option.some (PyVal.npnum (RHSBeam_Ixx b h t))
    second_moment_of_area_yy := Option.some (PyVal.npnum (RHSBeam_Iyy b h t)) }

/-- `CHSBeam.area`: the source's simplified form `math.pi * (2*r*t - t**2)`. -/
def CHSBeam_area (r t : ℚ) : ℚ := math_pi * (2 * r * t - t ^ 2)

/-- `CHSBeam.second_moment_of_area_xx` (`_yy` equals it by symmetry). -/
def CHSBeam_Ixx (r t : ℚ) : ℚ := math_pi / 4 * (r ^ 4 - (r - t) ^ 4)

/-- A `CHSBeam(material, length, r, t)` instance; `numpy.float64` dimensions
from the search grid, Python-float `length`. -/
def CHSBeam (material : Material) (length r t : ℚ) : Beam :=
  { material := material
    length := Option.some (PyVal.num length)
    area := Option.some (PyVal.npnum (CHSBeam_area r t))
    second_moment_of_area_xx := Option.some (PyVal.npnum (CHSBeam_Ixx r t))
    second_moment_of_area_yy := Option.some (PyVal.npnum (CHSBeam_Ixx r t)) }

/-- Modelled from the spec: the exact annulus area `π * (r² - (r-t)²)` that
the specification's open question contrasts with the implemented `CHSBeam`
area formula; defined only for that comparison. -/
def annulus_area (r t : ℚ) : ℚ := math_pi * (r ^ 2 - (r - t) ^ 2)

/-- `np.arange(start, stop, step)` for a positive step: the values
`start + k * step` for `0 ≤ k < ⌈(stop - start) / step⌉`. -/
def arange (start stop step : ℚ) : List ℚ :=
  (List.range (⌈(stop - start) / step⌉.toNat)).map (fun (k : ℕ) => start + (k : ℚ) * step)

namespace part2

/-- SI prefixes from `part2.py`. -/
def MILLI : ℚ := 1 / 10 ^ 3

def KILO : ℚ := 10 ^ 3

/-- Beam length: `2000 * MILLI` metres. -/
def length : ℚ := 2000 * MILLI

/-- Applied loading: `24 * KILO` newtons. -/
def loading : ℚ := 24 * KILO

def max_breadth : ℚ := 30 * MILLI

def max_height : ℚ := 100 * MILLI

def step_size : ℚ := 1 * MILLI

/-- The (b, h, tw, tf) tuples enumerated by the four nested loops in
`get_best_I_beam`. -/
def I_grid : List (ℚ × ℚ × ℚ × ℚ) :=
  (arange step_size (max_breadth + step_size) step_size).flatMap fun b =>
    (arange step_size (max_height + step_size) step_size).flatMap fun h =>
      (arange step_size (b + step_size) step_size).flatMap fun tw =>
        (arange step_size (h / 2 + step_size) step_size).map fun tf => (b, h, tw, tf)

/-- The (b, h, t) tuples enumerated by the three nested loops in
`get_best_RHS_beam`; the wall thickness bound uses
`min_dimension = min(b, h)`. -/
def RHS_grid : List (ℚ × ℚ × ℚ) :=
  (arange step_size (max_breadth + step_size) step_size).flatMap fun b =>
    (arange step_size (max_height + step_size) step_size).flatMap fun h =>
      (arange step_size (min b h / 2 + step_size) step_size).map fun t => (b, h, t)

/-- The (r, t) pairs enumerated by the two nested loops in
`get_best_CHS_beam`. -/
def CHS_grid : List (ℚ × ℚ) :=
  (arange step_size (min max_breadth max_height / 2 + step_size) step_size).flatMap fun r =>
    (arange step_size (r + step_size) step_size).map fun t => (r, t)

/-- `get_best_I_beam(material)`: fold `get_new_best_beam` over the I-beam
grid, seeded with no incumbent. -/
def get_best_I_beam (material : Material) : Except PyErr (Option Beam) :=
  I_grid.foldlM
    (fun best p => Beam.get_new_best_beam (IBeam material length p.1 p.2.1 p.2.2.1 p.2.2.2)
      (PyVal.num loading) best)
    Option.none

/-- `get_best_RHS_beam(material)`. -/
def get_best_RHS_beam (material : Material) : Except PyErr (Option Beam) :=
  RHS_grid.foldlM
    (fun best p => Beam.get_new_best_beam (RHSBeam material length p.1 p.2.1 p.2.2)
      (PyVal.num loading) best)
    Option.none

/-- `get_best_CHS_beam(material)`. -/
def get_best_CHS_beam (material : Material) : Except PyErr (Option Beam) :=
  CHS_grid.foldlM
    (fun best p => Beam.get_new_best_beam (CHSBeam material length p.1 p.2)
      (PyVal.num loading) best)
    Option.none

end part2

/-- The reduction of a collection of candidate beams by repeated
`get_new_best_beam`, seeded with no incumbent — the abstract shape of the
search loops. -/
def foldBestBeams (loading : PyVal) (beams : List Beam) : Except PyErr (Option Beam) :=
  beams.foldlM (fun best bm => Beam.get_new_best_beam bm loading best) Option.none

/-- Numeric (number-like) test on a Python value: a Python number or any
numpy float64 scalar. -/
def isNum : PyVal → Bool
  | .num _ => true
  | .npnum _ => true
  | .npinf _ => true
  | .npnan => true
  | _ => false

/-- Numeric-attribute test used to phrase undefinedness hypotheses: the
attribute is present and holds a number-like (Python or numpy) value. -/
def isNumAttr : Option PyVal → Bool
  | Option.some v => isNum v
  | Option.none => false

/-- A well-behaved material used for concrete checks (yield stress 100,
modulus 1, elongation 10, density, price and energy density 1). -/
def mat0 : Material :=
  { name := "m0", yield_stress := PyVal.num 100, modulus := PyVal.num 1,
    elongation := PyVal.num 10, density := PyVal.num 1, price := PyVal.num 1,
    energy_density := PyVal.num 1 }

/-- A material every field of which holds a non-numeric object. -/
def mat_bad : Material :=
  { name := "bad", yield_stress := PyVal.other, modulus := PyVal.other,
    elongation := PyVal.other, density := PyVal.other, price := PyVal.other,
    energy_density := PyVal.other }

/-- A material of `mat0`'s shape whose yield stress holds a non-numeric
object. -/
def mat_oddYield : Material :=
  { name := "oy", yield_stress := PyVal.other, modulus := PyVal.num 1,
    elongation := PyVal.num 1, density := PyVal.num 1, price := PyVal.num 1,
    energy_density := PyVal.num 1 }

/-- A material with all mechanical fields equal to 1. -/
def mat1 : Material :=
  { name := "m1", yield_stress := PyVal.num 1, modulus := PyVal.num 1,
    elongation := PyVal.num 1, density := PyVal.num 1, price := PyVal.num 1,
    energy_density := PyVal.num 1 }

/-- A sufficient beam (under load 1) of area 1 and both second moments 1. -/
def beamA : Beam :=
  { material := mat0, length := Option.some (PyVal.num 1),
    area := Option.some (PyVal.num 1),
    second_moment_of_area_xx := Option.some (PyVal.num 1),
    second_moment_of_area_yy := Option.some (PyVal.num 1) }

/-- A sufficient beam (under load 1) of area 2 and both second moments 1. -/
def beamB : Beam :=
  { material := mat0, length := Option.some (PyVal.num 1),
    area := Option.some (PyVal.num 2),
    second_moment_of_area_xx := Option.some (PyVal.num 1),
    second_moment_of_area_yy := Option.some (PyVal.num 1) }

/-- A sufficient beam with the same area as `beamA` but both second moments
equal to 2 (strictly stiffer in both axes). -/
def beamTie : Beam :=
  { material := mat0, length := Option.some (PyVal.num 1),
    area := Option.some (PyVal.num 1),
    second_moment_of_area_xx := Option.some (PyVal.num 2),
    second_moment_of_area_yy := Option.some (PyVal.num 2) }

/-- A beam whose `second_moment_of_area_xx` attribute is missing (so its
`buckling_load` is `None`) while its squash load 1 falls below larger loads. -/
def beamNoIxx : Beam :=
  { material := mat1, length := Option.some (PyVal.num 1),
    area := Option.some (PyVal.num 1),
    second_moment_of_area_xx := Option.none,
    second_moment_of_area_yy := Option.some (PyVal.num 1) }

/-- A beam whose area is the number 0 (all other fields numeric). -/
def beamZeroArea : Beam :=
  { material := mat0, length := Option.some (PyVal.num 1),
    area := Option.some (PyVal.num 0),
    second_moment_of_area_xx := Option.some (PyVal.num 1),
    second_moment_of_area_yy := Option.some (PyVal.num 1) }

/-- A beam with a non-numeric yield stress (an incompatible prerequisite, so
`squash_load` is `None`) whose area is the number 0. -/
def beamBadYieldZeroArea : Beam :=
  { material := mat_oddYield, length := Option.some (PyVal.num 1),
    area := Option.some (PyVal.num 0),
    second_moment_of_area_xx := Option.some (PyVal.num 1),
    second_moment_of_area_yy := Option.some (PyVal.num 1) }

/-- A beam whose area attribute holds `None` and whose
`second_moment_of_area_xx` attribute is missing. -/
def beamUndef : Beam :=
  { material := mat_bad, length := Option.some (PyVal.num 1),
    area := Option.some PyVal.none,
    second_moment_of_area_xx := Option.none,
    second_moment_of_area_yy := Option.some PyVal.other }

theorem compare_with_ok (self curr : Beam) (r : Option Beam)
    (h : Beam.compare_with self curr = .ok r) :
    r = Option.some curr ∨ r = Option.some self := by
  unfold Beam.compare_with at h
  repeat' split at h
  all_goals first
    | exact Except.noConfusion h
    | exact Or.inl (Except.ok.inj h).symm
    | exact Or.inr (Except.ok.inj h).symm

theorem get_new_best_beam_ok (self : Beam) (l : PyVal) (curr r : Option Beam)
    (h : Beam.get_new_best_beam self l curr = .ok r) :
    r = curr ∨ (r = Option.some self ∧ Beam.is_sufficient self l = .ok (Option.some true)) := by
  unfold Beam.get_new_best_beam at h
  cases hs : Beam.is_sufficient self l with
  | error e => rw [hs] at h; exact Except.noConfusion h
  | ok s =>
    rw [hs] at h
    cases s with
    | none => exact Or.inl (Except.ok.inj h).symm
    | some b =>
      cases b with
      | false => exact Or.inl (Except.ok.inj h).symm
      | true =>
        cases curr with
        | none =>
          rcases compare_with_ok self (Option.none.getD self) r h with h' | h' <;>
            exact Or.inr ⟨h', rfl⟩
        | some c =>
          rcases compare_with_ok self ((Option.some c).getD self) r h with h' | h'
          · exact Or.inl h'
          · exact Or.inr ⟨h', rfl⟩

theorem foldlM_best_ok {γ : Type} (l : PyVal) (mk : γ → Beam) (grid : List γ) :
    ∀ (init r : Option Beam),
      (init = Option.none ∨ ∃ bm, init = Option.some bm ∧
        Beam.is_sufficient bm l = .ok (Option.some true)) →
      List.foldlM (fun best x => Beam.get_new_best_beam (mk x) l best) init grid = .ok r →
      (r = Option.none ∨ ∃ bm, r = Option.some bm ∧
        Beam.is_sufficient bm l = .ok (Option.some true)) := by
  induction grid with
  | nil =>
    intro init r hinv h
    simp only [List.foldlM_nil] at h
    have : init = r := by
      have := h
      simp [pure, Except.pure] at this
      exact this
    exact this ▸ hinv
  | cons x xs ih =>
    intro init r hinv h
    rw [List.foldlM_cons] at h
    cases hx : Beam.get_new_best_beam (mk x) l init with
    | error e => rw [hx] at h; simp [Bind.bind, Except.bind] at h
    | ok b =>
      rw [hx] at h
      have hb := get_new_best_beam_ok (mk x) l init b hx
      have hinv' : b = Option.none ∨ ∃ bm, b = Option.some bm ∧
          Beam.is_sufficient bm l = .ok (Option.some true) := by
        rcases hb with rfl | ⟨hbs, hsuf⟩
        · exact hinv
        · exact Or.inr ⟨mk x, hbs, hsuf⟩
      have h' : List.foldlM (fun best x => Beam.get_new_best_beam (mk x) l best) b xs = .ok r := by
        simpa [Bind.bind, Except.bind] using h
      exact ih b r hinv' h'

theorem is_sufficient_eq_some_true (b : Beam) (L : ℚ)
    (h : Beam.is_sufficient b (PyVal.num L) = .ok (Option.some true)) :
    ∃ vsq vbl vst, Beam.squash_load b = .ok vsq ∧ Beam.buckling_load b = .ok vbl ∧
      Beam.get_strain b (PyVal.num L) = .ok vst ∧
      pyGe vsq (PyVal.num L) = .ok true ∧ pyGe vbl (PyVal.num L) = .ok true ∧
      pyLe vst b.material.elongation = .ok true := by
  unfold Beam.is_sufficient at h
  cases hst : Beam.get_strain b (PyVal.num L) with
  | error e => rw [hst] at h; cases e <;> simp [catchErrB] at h
  | ok vst =>
    rw [hst] at h
    cases hsq : Beam.squash_load b with
    | error e => rw [hsq] at h; cases e <;> simp [catchErrB] at h
    | ok vsq =>
      rw [hsq] at h
      replace h : (match pyGe vsq (PyVal.num L) with
          | .error e => catchErrB e
          | .ok false => Except.ok (Option.some false)
          | .ok true =>
            match Beam.buckling_load b with
            | .error e => catchErrB e
            | .ok bl =>
              match pyGe bl (PyVal.num L) with
              | .error e => catchErrB e
              | .ok false => Except.ok (Option.some false)
              | .ok true =>
                match pyLe vst b.material.elongation with
                | .error e => catchErrB e
                | .ok c => Except.ok (Option.some c)) = Except.ok (Option.some true) := h
      cases hge1 : pyGe vsq (PyVal.num L) with
      | error e => rw [hge1] at h; cases e <;> simp [catchErrB] at h
      | ok c1 =>
        rw [hge1] at h
        cases c1 with
        | false => simp at h
        | true =>
          cases hbl : Beam.buckling_load b with
          | error e => rw [hbl] at h; cases e <;> simp [catchErrB] at h
          | ok vbl =>
            rw [hbl] at h
            replace h : (match pyGe vbl (PyVal.num L) with
                | .error e => catchErrB e
                | .ok false => Except.ok (Option.some false)
                | .ok true =>
                  match pyLe vst b.material.elongation with
                  | .error e => catchErrB e
                  | .ok c => Except.ok (Option.some c)) = Except.ok (Option.some true) := h
            cases hge2 : pyGe vbl (PyVal.num L) with
            | error e => rw [hge2] at h; cases e <;> simp [catchErrB] at h
            | ok c2 =>
              rw [hge2] at h
              cases c2 with
              | false => simp at h
              | true =>
                cases hle : pyLe vst b.material.elongation with
                | error e => rw [hle] at h; cases e <;> simp [catchErrB] at h
                | ok c3 =>
                  rw [hle] at h
                  simp at h
                  rw [h] at hle
                  exact ⟨vsq, vbl, vst, rfl, rfl, rfl, hge1, hge2, hle⟩

theorem pyGe_ok_isNum_left (u v : PyVal) (c : Bool) (h : pyGe u v = .ok c) :
    isNum u = true := by
  cases u <;> cases v <;> first | exact Except.noConfusion h | simp [isNum]

theorem pyLe_ok_isNum_right (u v : PyVal) (c : Bool) (h : pyLe u v = .ok c) :
    isNum v = true := by
  cases u <;> cases v <;> first | exact Except.noConfusion h | simp [isNum]

theorem pyLe_ok_isNum_left (u v : PyVal) (c : Bool) (h : pyLe u v = .ok c) :
    isNum u = true := by
  cases u <;> cases v <;> first | exact Except.noConfusion h | simp [isNum]

theorem pyGe_true_le (v : PyVal) (q L : ℚ)
    (hv : v = PyVal.num q ∨ v = PyVal.npnum q)
    (h : pyGe v (PyVal.num L) = .ok true) : L ≤ q := by
  rcases hv with rfl | rfl
  · exact of_decide_eq_true (Except.ok.inj h)
  · exact of_decide_eq_true (Except.ok.inj h)

theorem is_sufficient_eval_num (b : Beam) (L sq bl st el : ℚ)
    (hsq : Beam.squash_load b = .ok (PyVal.num sq))
    (hbl : Beam.buckling_load b = .ok (PyVal.num bl))
    (hst : Beam.get_strain b (PyVal.num L) = .ok (PyVal.num st))
    (hel : b.material.elongation = PyVal.num el) :
    Beam.is_sufficient b (PyVal.num L) =
      .ok (Option.some (decide (sq ≥ L) && (decide (bl ≥ L) && decide (st ≤ el)))) := by
  unfold Beam.is_sufficient
  rw [hst, hsq]
  by_cases h1 : sq ≥ L
  · simp only [pyGe, h1, decide_true_eq_true, decide_eq_true_eq]
    rw [hbl]
    by_cases h2 : bl ≥ L
    · simp only [h2, decide_true_eq_true, decide_eq_true_eq]
      rw [hel]
      simp [pyLe, h1, h2]
    · simp [h1, h2]
  · simp [pyGe, h1]

theorem mem_arange {start stop step x : ℚ} (hs : 0 < step) (hx : x ∈ arange start stop step) :
    start ≤ x ∧ x < stop := by
  unfold arange at hx
  rcases List.mem_map.1 hx with ⟨k, hk, rfl⟩
  have hk' : k < (⌈(stop - start) / step⌉).toNat := List.mem_range.1 hk
  constructor
  · have h0 : (0 : ℚ) ≤ (k : ℚ) * step := mul_nonneg (by positivity) hs.le
    linarith
  · have h1 : (k : ℤ) < ⌈(stop - start) / step⌉ := Int.lt_toNat.1 hk'
    have h2 : ((k : ℚ) + 1) ≤ ((⌈(stop - start) / step⌉ : ℤ) : ℚ) := by
      exact_mod_cast Int.add_one_le_iff.2 h1
    have h3 : ((⌈(stop - start) / step⌉ : ℤ) : ℚ) < (stop - start) / step + 1 :=
      Int.ceil_lt_add_one _
    have h4 : (k : ℚ) < (stop - start) / step := by linarith
    have h5 : (k : ℚ) * step < stop - start := (lt_div_iff₀ hs).1 h4
    linarith

theorem pyMul_not_num_left (u v : PyVal) (h : isNum u = false) :
    pyMul u v = .error .typeError := by
  cases u <;> cases v <;> first | rfl | simp_all [isNum]

theorem pyMul_not_num_right (u v : PyVal) (h : isNum v = false) :
    pyMul u v = .error .typeError := by
  cases u <;> cases v <;> first | rfl | simp_all [isNum]

theorem pyDiv_not_num_right (u v : PyVal) (h : isNum v = false) :
    pyDiv u v = .error .typeError := by
  cases u <;> cases v <;> first | rfl | simp_all [isNum]

theorem pyGe_not_num_left (u v : PyVal) (h : isNum u = false) :
    pyGe u v = .error .typeError := by
  cases u <;> cases v <;> first | rfl | simp_all [isNum]

theorem pyMin_not_num_left (u v : PyVal) (h : isNum u = false) :
    pyMin u v = .error .typeError := by
  cases u <;> cases v <;> first | rfl | simp_all [isNum]

theorem pyAdd_not_num_left (u v : PyVal) (h : isNum u = false) :
    pyAdd u v = .error .typeError := by
  cases u <;> cases v <;> first | rfl | simp_all [isNum]

/-- C1: the code contradicts the claim (and its own docstring): `beamA` and
`beamB` share a material and are both sufficient under load 1, `beamA.area`
(1) is strictly smaller than `beamB.area` (2), and the reverse call direction
does return the smaller beam, but `beamA.get_new_best_beam(1, beamB)` returns
the incumbent `beamB`: the strictly-smaller-area branch assigns to the dead
local `best_beam` and the function returns `curr_best_beam` unchanged. -/
theorem C1_smaller_area_candidate_not_adopted :
    Beam.is_sufficient beamA (PyVal.num 1) = .ok (Option.some true) ∧
    Beam.is_sufficient beamB (PyVal.num 1) = .ok (Option.some true) ∧
    beamA.area = Option.some (PyVal.num 1) ∧
    beamB.area = Option.some (PyVal.num 2) ∧
    Beam.get_new_best_beam beamA (PyVal.num 1) (Option.some beamB) = .ok (Option.some beamB) ∧
    Beam.get_new_best_beam beamB (PyVal.num 1) (Option.some beamA) = .ok (Option.some beamA) := by
  refine ⟨?_, ?_, rfl, rfl, ?_, ?_⟩ <;> with_unfolding_all rfl

/-- C5 counterexample: there is no pair (r, t) with 0 < t ≤ r at which the
implemented circular-hollow-section area differs from the exact annulus area:
the two formulas are algebraically identical.  (The area attribute carries the
numpy value of the formula, since the search passes numpy dimensions.) -/
theorem C5_counterexample :
    ¬ ∃ r t : ℚ, 0 < t ∧ t ≤ r ∧
      (CHSBeam mat0 1 r t).area ≠ Option.some (PyVal.npnum (annulus_area r t)) := by
  rintro ⟨r, t, -, -, hne⟩
  apply hne
  show Option.some (PyVal.npnum (CHSBeam_area r t)) = Option.some (PyVal.npnum (annulus_area r t))
  have h : CHSBeam_area r t = annulus_area r t := by unfold CHSBeam_area annulus_area; ring
  rw [h]

/-- C5 amended: for every material, length, radius and wall thickness, the
`CHSBeam` area `π(2rt - t²)` equals the exact annulus area `π(r² - (r-t)²)`;
the formula is exact, not a thin-wall approximation. -/
theorem C5_area_equals_annulus (material : Material) (length r t : ℚ) :
    (CHSBeam material length r t).area = Option.some (PyVal.npnum (annulus_area r t)) := by
  show Option.some (PyVal.npnum (CHSBeam_area r t)) = Option.some (PyVal.npnum (annulus_area r t))
  have h : CHSBeam_area r t = annulus_area r t := by unfold CHSBeam_area annulus_area; ring
  rw [h]

/-- C6 counterexample: folding the same two sufficient beams in the two
possible orders yields different best beams (the smaller-area candidate never
displaces an incumbent, so whichever sufficient beam comes first wins). -/
theorem C6_counterexample :
    foldBestBeams (PyVal.num 1) [beamA, beamB] ≠ foldBestBeams (PyVal.num 1) [beamB, beamA] := by
  with_unfolding_all decide

/-- C6 amended: the pairwise reduction `get_new_best_beam` seeded with no
incumbent is not order-independent: there are a load and two permutations of
the same finite collection of beams whose folds disagree, so the reduction is
neither associative nor commutative. -/
theorem C6_not_order_independent :
    ∃ (l : PyVal) (bs cs : List Beam), bs.Perm cs ∧ foldBestBeams l bs ≠ foldBestBeams l cs :=
  ⟨PyVal.num 1, [beamA, beamB], [beamB, beamA], List.Perm.swap beamB beamA [],
    by with_unfolding_all decide⟩

/-- C8 counterexample: with breadth = height = 1 and flange thickness 1 (all
positive), raising the web thickness from 1 to 2 strictly decreases the
I-beam area, refuting "strictly increasing ... for all positive thickness
values". -/
theorem C8_counterexample :
    (0 : ℚ) < 1 ∧ (0 : ℚ) < 2 ∧ (1 : ℚ) < 2 ∧ IBeam_area 1 1 2 1 < IBeam_area 1 1 1 1 := by
  norm_num [IBeam_area]

/-- C8 amended: the I-beam area is strictly increasing in the web thickness
provided the flange thickness is below h/2, and strictly increasing in the
flange thickness provided the web thickness is below b. -/
theorem C8_area_monotone (b h tw tw' tf tf' : ℚ) :
    (tf < h / 2 → tw < tw' → IBeam_area b h tw tf < IBeam_area b h tw' tf) ∧
    (tw < b → tf < tf' → IBeam_area b h tw tf < IBeam_area b h tw tf') := by
  constructor <;> intro h1 h2 <;> unfold IBeam_area <;> nlinarith

/-- Witness for C8 amended at b = 2, h = 4, thicknesses 1 and 2. -/
theorem C8_area_monotone_witness :
    IBeam_area 2 4 1 1 < IBeam_area 2 4 2 1 ∧ IBeam_area 2 4 1 1 < IBeam_area 2 4 1 2 :=
  ⟨(C8_area_monotone 2 4 1 2 1 1).1 (by norm_num) (by norm_num),
   (C8_area_monotone 2 4 1 1 1 2).2 (by norm_num) (by norm_num)⟩

/-- C10: on a beam whose `area` is the number 0, `get_strain` raises
ZeroDivisionError (it catches only AttributeError and TypeError), and
`is_sufficient` propagates the same error. -/
theorem C10_zero_area_raises (b : Beam) (lv : ℚ) (h : b.area = Option.some (PyVal.num 0)) :
    Beam.get_strain b (PyVal.num lv) = .error .zeroDivisionError ∧
    Beam.is_sufficient b (PyVal.num lv) = .error .zeroDivisionError := by
  have hstr : Beam.get_strain b (PyVal.num lv) = .error .zeroDivisionError := by
    unfold Beam.get_strain
    rw [h]
    simp [getAttr, pyDiv, catchErrV]
  refine ⟨hstr, ?_⟩
  unfold Beam.is_sufficient
  rw [hstr]
  simp [catchErrB]

/-- Witness for C10 at the concrete zero-area beam and load 1. -/
theorem C10_zero_area_raises_witness :
    Beam.get_strain beamZeroArea (PyVal.num 1) = .error .zeroDivisionError ∧
    Beam.is_sufficient beamZeroArea (PyVal.num 1) = .error .zeroDivisionError :=
  C10_zero_area_raises beamZeroArea 1 rfl

/-- C4: on an exact area tie, a sufficient candidate displaces the incumbent
exactly when both of its second moments of area strictly exceed the
incumbent's; otherwise the incumbent is returned unchanged. -/
theorem C4_equal_area_tie_break (a bm : Beam) (l : PyVal) (ar ax ay bx byv : ℚ)
    (hsuff : Beam.is_sufficient a l = .ok (Option.some true))
    (haA : a.area = Option.some (PyVal.num ar))
    (hbA : bm.area = Option.some (PyVal.num ar))
    (hax : a.second_moment_of_area_xx = Option.some (PyVal.num ax))
    (hay : a.second_moment_of_area_yy = Option.some (PyVal.num ay))
    (hbx : bm.second_moment_of_area_xx = Option.some (PyVal.num bx))
    (hby : bm.second_moment_of_area_yy = Option.some (PyVal.num byv)) :
    (ax > bx ∧ ay > byv → Beam.get_new_best_beam a l (Option.some bm) = .ok (Option.some a)) ∧
    (¬(ax > bx ∧ ay > byv) → Beam.get_new_best_beam a l (Option.some bm) = .ok (Option.some bm)) := by
  have key : Beam.get_new_best_beam a l (Option.some bm) = Beam.compare_with a bm := by
    unfold Beam.get_new_best_beam
    rw [hsuff]
    rfl
  constructor
  · rintro ⟨h1, h2⟩
    rw [key]
    unfold Beam.compare_with
    rw [haA, hbA, hax, hay, hbx, hby]
    simp [getAttr, pyLt, pyEq, pyGt, h1, h2, lt_irrefl]
  · intro hno
    rw [key]
    unfold Beam.compare_with
    rw [haA, hbA, hax, hay, hbx, hby]
    by_cases h1 : ax > bx
    · have h2 : ¬ ay > byv := fun h2 => hno ⟨h1, h2⟩
      simp [getAttr, pyLt, pyEq, pyGt, h1, h2, lt_irrefl]
    · simp [getAttr, pyLt, pyEq, pyGt, h1, lt_irrefl]

/-- Witness for C4: `beamTie` (area 1, both moments 2) displaces `beamA`
(area 1, both moments 1), while `beamA` does not displace `beamTie`. -/
theorem C4_equal_area_tie_break_witness :
    Beam.get_new_best_beam beamTie (PyVal.num 1) (Option.some beamA) = .ok (Option.some beamTie) ∧
    Beam.get_new_best_beam beamA (PyVal.num 1) (Option.some beamTie) = .ok (Option.some beamTie) :=
  ⟨(C4_equal_area_tie_break beamTie beamA (PyVal.num 1) 1 2 2 1 1
      (by with_unfolding_all rfl) rfl rfl rfl rfl rfl rfl).1 (by norm_num),
   (C4_equal_area_tie_break beamA beamTie (PyVal.num 1) 1 1 1 2 2
      (by with_unfolding_all rfl) rfl rfl rfl rfl rfl rfl).2 (by norm_num)⟩

/-- C3 counterexample: `beamNoIxx` has an undefined buckling_load (a needed
quantity is undefined), yet `is_sufficient(5)` returns False rather than the
undefined value, because the squash comparison fails first and the `and`
short-circuits. -/
theorem C3_counterexample :
    Beam.buckling_load beamNoIxx = .ok PyVal.none ∧
    Beam.is_sufficient beamNoIxx (PyVal.num 5) = .ok (Option.some false) ∧
    Beam.is_sufficient beamNoIxx (PyVal.num 5) ≠ .ok Option.none := by
  refine ⟨by with_unfolding_all rfl, by with_unfolding_all rfl, by with_unfolding_all decide⟩

/-- C3 amended: when squash load, buckling load, strain and elongation are all
defined numbers, `is_sufficient` returns true iff squash_load ≥ load and
buckling_load ≥ load and strain ≤ elongation; and whenever it returns true,
all four needed quantities held defined numeric values (Python or numpy) — so
an undefined needed quantity yields the undefined value or False
(short-circuit), never true. -/
theorem C3_is_sufficient_characterisation :
    (∀ (b : Beam) (L sq bl st el : ℚ),
      Beam.squash_load b = .ok (PyVal.num sq) →
      Beam.buckling_load b = .ok (PyVal.num bl) →
      Beam.get_strain b (PyVal.num L) = .ok (PyVal.num st) →
      b.material.elongation = PyVal.num el →
      (Beam.is_sufficient b (PyVal.num L) = .ok (Option.some true) ↔
        (sq ≥ L ∧ bl ≥ L ∧ st ≤ el))) ∧
    (∀ (b : Beam) (L : ℚ),
      Beam.is_sufficient b (PyVal.num L) = .ok (Option.some true) →
      (∃ v, Beam.squash_load b = .ok v ∧ isNum v = true) ∧
      (∃ v, Beam.buckling_load b = .ok v ∧ isNum v = true) ∧
      (∃ v, Beam.get_strain b (PyVal.num L) = .ok v ∧ isNum v = true) ∧
      isNum b.material.elongation = true) := by
  constructor
  · intro b L sq bl st el hsq hbl hst hel
    rw [is_sufficient_eval_num b L sq bl st el hsq hbl hst hel]
    simp [Bool.and_eq_true, decide_eq_true_eq]
  · intro b L h
    obtain ⟨vsq, vbl, vst, h1, h2, h3, hg1, hg2, hl3⟩ := is_sufficient_eq_some_true b L h
    exact ⟨⟨vsq, h1, pyGe_ok_isNum_left _ _ _ hg1⟩, ⟨vbl, h2, pyGe_ok_isNum_left _ _ _ hg2⟩,
      ⟨vst, h3, pyLe_ok_isNum_left _ _ _ hl3⟩, pyLe_ok_isNum_right _ _ _ hl3⟩

set_option maxRecDepth 1000000 in
/-- Witness for C3 amended at `beamA` under load 1. -/
theorem C3_is_sufficient_characterisation_witness :
    (Beam.is_sufficient beamA (PyVal.num 1) = .ok (Option.some true) ↔
      ((100 : ℚ) ≥ 1 ∧ math_pi ^ 2 ≥ 1 ∧ (1 : ℚ) ≤ 10)) ∧
    ((∃ v, Beam.squash_load beamA = .ok v ∧ isNum v = true) ∧
     (∃ v, Beam.buckling_load beamA = .ok v ∧ isNum v = true) ∧
     (∃ v, Beam.get_strain beamA (PyVal.num 1) = .ok v ∧ isNum v = true) ∧
     isNum beamA.material.elongation = true) :=
  ⟨C3_is_sufficient_characterisation.1 beamA 1 100 (math_pi ^ 2) 1 10
      (by with_unfolding_all rfl) (by with_unfolding_all rfl)
      (by with_unfolding_all rfl) rfl,
   C3_is_sufficient_characterisation.2 beamA 1 (by with_unfolding_all rfl)⟩

set_option maxRecDepth 1000000 in
/-- C7 counterexample: the RHS search enumerates (b, h, t) = (1mm, 1mm, 1mm),
where 2t = 2mm is not below min(b, h) = 1mm: the wall closes (inverts) the
interior. -/
theorem C7_counterexample :
    ((1 / 1000 : ℚ), (1 / 1000 : ℚ), (1 / 1000 : ℚ)) ∈ part2.RHS_grid ∧
    ¬ (2 * (1 / 1000 : ℚ) < min (1 / 1000 : ℚ) (1 / 1000 : ℚ)) := by
  constructor
  · with_unfolding_all decide
  · norm_num

/-- C7 amended: every wall thickness t enumerated for breadth b and height h
satisfies step_size ≤ t and t < min(b, h)/2 + step_size; so 2t can reach (and
at the smallest dimensions exceed) min(b, h), and the inner rectangle
dimensions can be zero or negative. -/
theorem C7_wall_thickness_bound (b h t : ℚ) (hmem : (b, h, t) ∈ part2.RHS_grid) :
    part2.step_size ≤ t ∧ t < min b h / 2 + part2.step_size := by
  unfold part2.RHS_grid at hmem
  rcases List.mem_flatMap.1 hmem with ⟨b', hb', h1⟩
  rcases List.mem_flatMap.1 h1 with ⟨h', hh', h2⟩
  rcases List.mem_map.1 h2 with ⟨t', ht', heq⟩
  cases heq
  have hstep : (0 : ℚ) < part2.step_size := by norm_num [part2.step_size, part2.MILLI]
  exact mem_arange hstep ht'

set_option maxRecDepth 1000000 in
/-- Witness for C7 amended at the grid point (1mm, 1mm, 1mm). -/
theorem C7_wall_thickness_bound_witness :
    part2.step_size ≤ (1 / 1000 : ℚ) ∧
    (1 / 1000 : ℚ) < min (1 / 1000 : ℚ) (1 / 1000 : ℚ) / 2 + part2.step_size :=
  C7_wall_thickness_bound (1 / 1000) (1 / 1000) (1 / 1000) (by with_unfolding_all decide)

/-- C9 counterexample: `beamBadYieldZeroArea` has an incompatible non-numeric
prerequisite (its material's yield stress), and `squash_load` duly returns the
undefined value — yet `is_sufficient` raises ZeroDivisionError (its area is
the number 0), so "is_sufficient then evaluates to a value treated as false —
no call on Beam raises an exception" fails. -/
theorem C9_counterexample :
    Beam.squash_load beamBadYieldZeroArea = .ok PyVal.none ∧
    Beam.is_sufficient beamBadYieldZeroArea (PyVal.num 1) = .error .zeroDivisionError := by
  exact ⟨by with_unfolding_all rfl, by with_unfolding_all rfl⟩

/-- C9 amended: when a beam's area and I_xx attributes are undefined or
non-numeric (so no zero-divisor can arise), every derived property returns
the undefined value, the undefined value propagates through every dependent
property, and `is_sufficient` evaluates to the undefined value (treated as
false by callers) without raising. -/
theorem C9_undefined_propagation (b : Beam) (load : PyVal)
    (ha : isNumAttr b.area = false) (hx : isNumAttr b.second_moment_of_area_xx = false) :
    Beam.volume b = .ok PyVal.none ∧ Beam.mass b = .ok PyVal.none ∧
    Beam.cost b = .ok PyVal.none ∧ Beam.total_embodied_energy b = .ok PyVal.none ∧
    Beam.embodied_energy_cost b = .ok PyVal.none ∧ Beam.total_cost b = .ok PyVal.none ∧
    Beam.squash_load b = .ok PyVal.none ∧ Beam.buckling_load b = .ok PyVal.none ∧
    Beam.get_strain b load = .ok PyVal.none ∧
    Beam.is_sufficient b load = .ok Option.none := by
  have hvol : Beam.volume b = .ok PyVal.none := by
    unfold Beam.volume
    cases hA : b.area with
    | none => rfl
    | some v =>
      cases v with
      | num q => simp [isNumAttr, isNum, hA] at ha
      | npnum q => simp [isNumAttr, isNum, hA] at ha
      | npinf s => simp [isNumAttr, isNum, hA] at ha
      | npnan => simp [isNumAttr, isNum, hA] at ha
      | none =>
        cases hL : b.length with
        | none => rfl
        | some w => cases w <;> rfl
      | other =>
        cases hL : b.length with
        | none => rfl
        | some w => cases w <;> rfl
  have hm : Beam.mass b = .ok PyVal.none := by
    unfold Beam.mass
    rw [hvol]
    simp [pyMul_not_num_left PyVal.none b.material.density rfl, catchErrV]
  have hc : Beam.cost b = .ok PyVal.none := by
    unfold Beam.cost
    rw [hm]
    simp [pyMul_not_num_left PyVal.none b.material.price rfl, catchErrV]
  have ht : Beam.total_embodied_energy b = .ok PyVal.none := by
    unfold Beam.total_embodied_energy
    rw [hm]
    simp [pyMul_not_num_left PyVal.none b.material.energy_density rfl, catchErrV]
  have he : Beam.embodied_energy_cost b = .ok PyVal.none := by
    unfold Beam.embodied_energy_cost
    rw [ht]
    simp [pyMul_not_num_left PyVal.none (PyVal.num ELECTRICITY_COST) rfl, catchErrV]
  have htc : Beam.total_cost b = .ok PyVal.none := by
    unfold Beam.total_cost
    rw [hc, he]
    simp [pyAdd_not_num_left PyVal.none PyVal.none rfl, catchErrV]
  have hsq : Beam.squash_load b = .ok PyVal.none := by
    unfold Beam.squash_load
    cases hA : b.area with
    | none => rfl
    | some v =>
      cases v with
      | num q => simp [isNumAttr, isNum, hA] at ha
      | npnum q => simp [isNumAttr, isNum, hA] at ha
      | npinf s => simp [isNumAttr, isNum, hA] at ha
      | npnan => simp [isNumAttr, isNum, hA] at ha
      | none => simp [getAttr, pyMul_not_num_right b.material.yield_stress PyVal.none rfl, catchErrV]
      | other => simp [getAttr, pyMul_not_num_right b.material.yield_stress PyVal.other rfl, catchErrV]
  have hbk : Beam.buckling_load b = .ok PyVal.none := by
    unfold Beam.buckling_load
    cases hX : b.second_moment_of_area_xx with
    | none => rfl
    | some v =>
      cases v with
      | num q => simp [isNumAttr, isNum, hX] at hx
      | npnum q => simp [isNumAttr, isNum, hX] at hx
      | npinf s => simp [isNumAttr, isNum, hX] at hx
      | npnan => simp [isNumAttr, isNum, hX] at hx
      | none =>
        cases hY : b.second_moment_of_area_yy with
        | none => rfl
        | some w => simp [getAttr, pyMin_not_num_left PyVal.none w rfl, catchErrV]
      | other =>
        cases hY : b.second_moment_of_area_yy with
        | none => rfl
        | some w => simp [getAttr, pyMin_not_num_left PyVal.other w rfl, catchErrV]
  have hst : Beam.get_strain b load = .ok PyVal.none := by
    unfold Beam.get_strain
    cases hA : b.area with
    | none => rfl
    | some v =>
      cases v with
      | num q => simp [isNumAttr, isNum, hA] at ha
      | npnum q => simp [isNumAttr, isNum, hA] at ha
      | npinf s => simp [isNumAttr, isNum, hA] at ha
      | npnan => simp [isNumAttr, isNum, hA] at ha
      | none => simp [getAttr, pyDiv_not_num_right load PyVal.none rfl, catchErrV]
      | other => simp [getAttr, pyDiv_not_num_right load PyVal.other rfl, catchErrV]
  have hsf : Beam.is_sufficient b load = .ok Option.none := by
    unfold Beam.is_sufficient
    rw [hst, hsq]
    simp [pyGe_not_num_left PyVal.none load rfl, catchErrB]
  exact ⟨hvol, hm, hc, ht, he, htc, hsq, hbk, hst, hsf⟩

/-- Witness for C9 amended at `beamUndef` (area attribute holds None, missing
I_xx) under load 3. -/
theorem C9_undefined_propagation_witness :
    Beam.volume beamUndef = .ok PyVal.none ∧ Beam.mass beamUndef = .ok PyVal.none ∧
    Beam.cost beamUndef = .ok PyVal.none ∧
    Beam.total_embodied_energy beamUndef = .ok PyVal.none ∧
    Beam.embodied_energy_cost beamUndef = .ok PyVal.none ∧
    Beam.total_cost beamUndef = .ok PyVal.none ∧
    Beam.squash_load beamUndef = .ok PyVal.none ∧
    Beam.buckling_load beamUndef = .ok PyVal.none ∧
    Beam.get_strain beamUndef (PyVal.num 3) = .ok PyVal.none ∧
    Beam.is_sufficient beamUndef (PyVal.num 3) = .ok Option.none :=
  C9_undefined_propagation beamUndef (PyVal.num 3) rfl rfl

/-- A beam with a numpy-valued area and a material whose yield stress and
modulus are non-numeric is never sufficient and never raises: the strain
divisions go through numpy (no ZeroDivisionError even at zero area), the
TypeErrors are caught to `None`, and the squash comparison on `None` yields
the undefined result. -/
theorem is_sufficient_np_area_other_material (b : Beam) (q l : ℚ)
    (hA : b.area = Option.some (PyVal.npnum q))
    (hY : b.material.yield_stress = PyVal.other)
    (hM : b.material.modulus = PyVal.other) :
    Beam.is_sufficient b (PyVal.num l) = .ok Option.none := by
  have hstr : Beam.get_strain b (PyVal.num l) = .ok PyVal.none := by
    have h1 : Beam.get_strain b (PyVal.num l) =
        (match pyDiv (ofNpF (npDiv (NpF.fin l) (NpF.fin q))) PyVal.other with
         | .error e => catchErrV e
         | .ok s => .ok s) := by
      unfold Beam.get_strain
      rw [hA, hM]
      rfl
    rw [h1]
    cases npDiv (NpF.fin l) (NpF.fin q) <;> rfl
  have hsq : Beam.squash_load b = .ok PyVal.none := by
    unfold Beam.squash_load
    rw [hA, hY]
    rfl
  unfold Beam.is_sufficient
  rw [hstr, hsq]
  rfl

/-- Folding `get_new_best_beam` over beams none of which is sufficient leaves
the incumbent unchanged. -/
theorem fold_insufficient {γ : Type} (l : PyVal) (mk : γ → Beam)
    (h : ∀ x, Beam.is_sufficient (mk x) l = .ok Option.none) (grid : List γ) :
    ∀ init : Option Beam,
      List.foldlM (fun best x => Beam.get_new_best_beam (mk x) l best) init grid = .ok init := by
  induction grid with
  | nil => intro init; rfl
  | cons x xs ih =>
    intro init
    rw [List.foldlM_cons]
    have hstep : Beam.get_new_best_beam (mk x) l init = .ok init := by
      unfold Beam.get_new_best_beam
      rw [h x]
    rw [hstep]
    simpa [Bind.bind, Except.bind] using ih init

/-- C2: each of the three search routines returns either no beam or a beam
that is sufficient under the configured loading; in particular a returned
beam whose squash load or buckling load is a (Python or numpy) number below
the loading is impossible. -/
theorem C2_search_only_sufficient (material : Material) (r : Option Beam)
    (hr : part2.get_best_I_beam material = .ok r ∨ part2.get_best_RHS_beam material = .ok r ∨
          part2.get_best_CHS_beam material = .ok r) :
    r = Option.none ∨ ∃ bm, r = Option.some bm ∧
      Beam.is_sufficient bm (PyVal.num part2.loading) = .ok (Option.some true) ∧
      (∀ q, Beam.squash_load bm = .ok (PyVal.num q) ∨
            Beam.squash_load bm = .ok (PyVal.npnum q) → part2.loading ≤ q) ∧
      (∀ q, Beam.buckling_load bm = .ok (PyVal.num q) ∨
            Beam.buckling_load bm = .ok (PyVal.npnum q) → part2.loading ≤ q) := by
  have base : r = Option.none ∨ ∃ bm, r = Option.some bm ∧
      Beam.is_sufficient bm (PyVal.num part2.loading) = .ok (Option.some true) := by
    rcases hr with h | h | h
    · unfold part2.get_best_I_beam at h
      exact foldlM_best_ok (PyVal.num part2.loading)
        (fun p : ℚ × ℚ × ℚ × ℚ => IBeam material part2.length p.1 p.2.1 p.2.2.1 p.2.2.2)
        part2.I_grid Option.none r (Or.inl rfl) h
    · unfold part2.get_best_RHS_beam at h
      exact foldlM_best_ok (PyVal.num part2.loading)
        (fun p : ℚ × ℚ × ℚ => RHSBeam material part2.length p.1 p.2.1 p.2.2)
        part2.RHS_grid Option.none r (Or.inl rfl) h
    · unfold part2.get_best_CHS_beam at h
      exact foldlM_best_ok (PyVal.num part2.loading)
        (fun p : ℚ × ℚ => CHSBeam material part2.length p.1 p.2)
        part2.CHS_grid Option.none r (Or.inl rfl) h
  rcases base with rfl | ⟨bm, rfl, hsuf⟩
  · exact Or.inl rfl
  · obtain ⟨vsq, vbl, vst, h1, h2, h3, hg1, hg2, hl3⟩ :=
      is_sufficient_eq_some_true bm part2.loading hsuf
    refine Or.inr ⟨bm, rfl, hsuf, ?_, ?_⟩
    · intro q hq
      rcases hq with hq | hq
      · rw [hq] at h1
        exact pyGe_true_le vsq q part2.loading (Or.inl (Except.ok.inj h1).symm) hg1
      · rw [hq] at h1
        exact pyGe_true_le vsq q part2.loading (Or.inr (Except.ok.inj h1).symm) hg1
    · intro q hq
      rcases hq with hq | hq
      · rw [hq] at h2
        exact pyGe_true_le vbl q part2.loading (Or.inl (Except.ok.inj h2).symm) hg2
      · rw [hq] at h2
        exact pyGe_true_le vbl q part2.loading (Or.inr (Except.ok.inj h2).symm) hg2

/-- Witness for C2: for the all-non-numeric material no rectangular beam is
sufficient (and, in particular, the degenerate 1mm × 1mm × 1mm grid point with
exactly zero area only yields a numpy infinity, not an exception), so
`get_best_RHS_beam` completes and returns no beam. -/
theorem C2_search_only_sufficient_witness :
    (Option.none : Option Beam) = Option.none ∨
    ∃ bm, (Option.none : Option Beam) = Option.some bm ∧
      Beam.is_sufficient bm (PyVal.num part2.loading) = .ok (Option.some true) ∧
      (∀ q, Beam.squash_load bm = .ok (PyVal.num q) ∨
            Beam.squash_load bm = .ok (PyVal.npnum q) → part2.loading ≤ q) ∧
      (∀ q, Beam.buckling_load bm = .ok (PyVal.num q) ∨
            Beam.buckling_load bm = .ok (PyVal.npnum q) → part2.loading ≤ q) :=
  C2_search_only_sufficient mat_bad Option.none
    (Or.inr (Or.inl (by
      unfold part2.get_best_RHS_beam
      exact fold_insufficient (PyVal.num part2.loading)
        (fun p : ℚ × ℚ × ℚ => RHSBeam mat_bad part2.length p.1 p.2.1 p.2.2)
        (fun p => is_sufficient_np_area_other_material
          (RHSBeam mat_bad part2.length p.1 p.2.1 p.2.2)
          (RHSBeam_area p.1 p.2.1 p.2.2) part2.loading rfl rfl rfl)
        part2.RHS_grid Option.none)))
